import Mathlib

/-!
Verification of the sticker-network visualization scripts
(`network.py` and `syntax/visual.py`) against their specification.

The Python data and control flow is shallowly embedded: spreadsheet cells
become the `Cell` type, Python floats become `PyFloat` (exact rationals plus
the non-finite values that `float(...)` can produce), fallible computations
return `Except PyExc`, and dictionaries become association lists with
Python `==` key semantics.
-/

/-- Exceptions that the modelled Python code can raise. -/
inductive PyExc
  | valueError
  | typeError
  | importError
  | zeroDivisionError
  | osError
deriving DecidableEq

instance {ε α : Type} [DecidableEq ε] [DecidableEq α] : DecidableEq (Except ε α)
  | .ok x, .ok y =>
    if h : x = y then .isTrue (congrArg Except.ok h)
    else .isFalse (fun he => h (Except.ok.inj he))
  | .error x, .error y =>
    if h : x = y then .isTrue (congrArg Except.error h)
    else .isFalse (fun he => h (Except.error.inj he))
  | .ok _, .error _ => .isFalse (fun he => Except.noConfusion he)
  | .error _, .ok _ => .isFalse (fun he => Except.noConfusion he)

/-- A Python float value: a finite value (modelled as an exact rational,
CPython's rounding of decimal literals to binary is not modelled), or one of
the non-finite values `inf`, `-inf`, `nan` that `float("inf")`, `float("-inf")`
and `float("nan")` produce. -/
inductive PyFloat
  | finite (q : ℚ)
  | inf
  | neginf
  | nan
deriving DecidableEq

/-- Whether a Python float is finite (not `inf`, `-inf` or `nan`). -/
def PyFloat.isFinite : PyFloat → Bool
  | .finite _ => true
  | _ => false

/-- A spreadsheet cell as read by pandas: a string, a numeric value
(`num .nan` is the missing-value marker NaN), or Python `None`. -/
inductive Cell
  | str (s : String)
  | num (f : PyFloat)
  | pynone
deriving DecidableEq

/-- `pd.isna`: true exactly for NaN and `None`. -/
def isna : Cell → Bool
  | .pynone => true
  | .num .nan => true
  | _ => false

/-- Equality of Python floats under `==`: NaN compares unequal to everything,
including itself. -/
def pyFloatEqB : PyFloat → PyFloat → Bool
  | .nan, _ => false
  | _, .nan => false
  | .inf, .inf => true
  | .neginf, .neginf => true
  | .finite a, .finite b => a == b
  | _, _ => false

/-- Python `==` on cell values: strings compare by content, numbers by
`pyFloatEqB` (so NaN ≠ NaN), `None == None` is true, and values of
different types compare unequal. -/
def pyEqB : Cell → Cell → Bool
  | .str a, .str b => a == b
  | .num a, .num b => pyFloatEqB a b
  | .pynone, .pynone => true
  | _, _ => false

/-- Python `str(...)` of a cell value.  `str(None) = "None"`,
`str(float("nan")) = "nan"`, etc.; the textual rendering of finite floats is
modelled by the rational's canonical rendering, which is injective like
CPython's shortest round-trip repr. -/
def cellStr : Cell → String
  | .str s => s
  | .pynone => "None"
  | .num .nan => "nan"
  | .num .inf => "inf"
  | .num .neginf => "-inf"
  | .num (.finite q) => toString q

/-- ASCII whitespace recognised by Python's `str.strip()` and `float()`. -/
def isPyWs (c : Char) : Bool :=
  c = ' ' || c = '\t' || c = '\n' || c = '\r' || c = '\x0b' || c = '\x0c'

/-- `str.strip()` on a character list. -/
def pyStripL (cs : List Char) : List Char :=
  ((cs.dropWhile isPyWs).reverse.dropWhile isPyWs).reverse

/-- `str.strip()`. -/
def pyStrip (s : String) : String :=
  String.mk (pyStripL s.data)

/-- `str.split(',')` on a character list: split at every comma. -/
def splitComma : List Char → List (List Char)
  | [] => [[]]
  | c :: rest =>
    if c = ',' then [] :: splitComma rest
    else
      match splitComma rest with
      | g :: gs => (c :: g) :: gs
      | [] => [[c]]

/-- `s.split(',')`. -/
def pySplitComma (s : String) : List String :=
  (splitComma s.data).map (fun cs => String.mk cs)

/-- `',' in s`. -/
def containsComma (s : String) : Bool :=
  s.data.any (fun c => c = ',')

/-- Continue scanning digits, allowing a single underscore between digits
(Python numeric-literal syntax accepted by `float`). Returns the digits read
and the unconsumed remainder. -/
def digitsUCont : List Char → List Char × List Char
  | '_' :: c :: rest =>
    if c.isDigit then
      let p := digitsUCont rest
      (c :: p.1, p.2)
    else ([], '_' :: c :: rest)
  | c :: rest =>
    if c.isDigit then
      let p := digitsUCont rest
      (c :: p.1, p.2)
    else ([], c :: rest)
  | [] => ([], [])

/-- Scan a nonempty digit group (underscores between digits allowed):
`none` if the input does not start with a digit. -/
def takeDigitsU (cs : List Char) : Option (List Char × List Char) :=
  match cs with
  | c :: rest =>
    if c.isDigit then
      let p := digitsUCont rest
      some (c :: p.1, p.2)
    else none
  | [] => none

/-- Numeric value of a digit string. -/
def natOfDigits (ds : List Char) : ℕ :=
  ds.foldl (fun n c => 10 * n + (c.toNat - '0'.toNat)) 0

/-- Exact rational value of a signed decimal literal with mantissa digits
`mant`, `fracLen` digits after the point, and decimal exponent `exp`,
computed with kernel-reducible integer arithmetic. -/
def decimalVal (neg : Bool) (mant : ℕ) (fracLen : ℕ) (exp : ℤ) : ℚ :=
  let e : ℤ := exp - (fracLen : ℤ)
  let num : ℕ := if 0 ≤ e then mant * 10 ^ e.toNat else mant
  let den : ℕ := if 0 ≤ e then 1 else 10 ^ (-e).toNat
  if neg then mkRat (-(num : ℤ)) den else mkRat (num : ℤ) den

/-- Parse the unsigned decimal part of a Python float literal:
`[digits] ['.' [digits]] [('e'|'E') [sign] digits]`, needing at least one
mantissa digit, with underscores allowed between digits, and nothing left
over.  Returns the mantissa digits' value, the number of fractional digits,
and the decimal exponent. -/
def parsePyDecimal (cs : List Char) : Option (ℕ × ℕ × ℤ) :=
  let ip := match takeDigitsU cs with
    | some p => p
    | none => ([], cs)
  let fp := match ip.2 with
    | '.' :: r =>
      match takeDigitsU r with
      | some p => p
      | none => ([], r)
    | _ => ([], ip.2)
  if ip.1 = [] ∧ fp.1 = [] then none
  else
    match fp.2 with
    | [] => some (natOfDigits (ip.1 ++ fp.1), fp.1.length, 0)
    | e :: r3 =>
      if e = 'e' ∨ e = 'E' then
        let se : ℤ × List Char := match r3 with
          | '+' :: r => (1, r)
          | '-' :: r => (-1, r)
          | _ => (1, r3)
        match takeDigitsU se.2 with
        | some (eds, []) =>
          some (natOfDigits (ip.1 ++ fp.1), fp.1.length, se.1 * (natOfDigits eds : ℤ))
        | _ => none
      else none

/-- Python `float(s)` on a string: strip whitespace, optional sign, then
either (case-insensitively) `inf`/`infinity`/`nan` or a decimal literal.
Returns `none` where CPython raises `ValueError`.  Overflow of huge decimal
exponents to `inf` is not modelled (the value stays an exact rational). -/
def pyFloatOfString? (s : String) : Option PyFloat :=
  let cs := pyStripL s.data
  let sc : Bool × List Char := match cs with
    | '+' :: r => (false, r)
    | '-' :: r => (true, r)
    | _ => (false, cs)
  let low := String.mk (sc.2.map Char.toLower)
  if low = "inf" ∨ low = "infinity" then some (if sc.1 then .neginf else .inf)
  else if low = "nan" then some .nan
  else (parsePyDecimal sc.2).map (fun t => .finite (decimalVal sc.1 t.1 t.2.1 t.2.2))

/-- Python `float(s)` with its exception made explicit. -/
def pyFloatE (s : String) : Except PyExc PyFloat :=
  match pyFloatOfString? s with
  | some f => .ok f
  | none => .error .valueError

/-- `lat = float(parts[0].strip()); lon = float(parts[1].strip())` with the
possible `ValueError` explicit (the first failing call short-circuits, as in
Python). -/
def parsePairE (p0 p1 : String) : Except PyExc (Option (PyFloat × PyFloat)) :=
  match pyFloatE (pyStrip p0) with
  | .error e => .error e
  | .ok la =>
    match pyFloatE (pyStrip p1) with
    | .error e => .error e
    | .ok lo => .ok (some (la, lo))

/-- The body of the `try` block of `extract_coordinates`: split on commas,
and if there are at least two parts, `float` both stripped parts (an
unparsable part raises `ValueError`). Fewer than two parts falls through to
the `None, None` return. -/
def tryParsePair (s : String) : Except PyExc (Option (PyFloat × PyFloat)) :=
  match pySplitComma s with
  | p0 :: p1 :: _ => parsePairE p0 p1
  | _ => .ok none

/-- `extract_coordinates` (network.py lines 6-17) with exceptions explicit:
the guard admits only strings that are not `"N/A"` and contain a comma, and
the `except (ValueError, TypeError)` clause converts those two exceptions
into the `None, None` result. -/
def extract_coordinatesE (v : Cell) : Except PyExc (Option (PyFloat × PyFloat)) :=
  match v with
  | .str s =>
    if s != "N/A" && containsComma s then
      match tryParsePair s with
      | .ok r => .ok r
      | .error .valueError => .ok none
      | .error .typeError => .ok none
      | .error e => .error e
    else .ok none
  | _ => .ok none

/-- `extract_coordinates` (network.py lines 6-17) as the pure function it
computes: `some (lat, lon)` on success, `none` for the `None, None` result. -/
def extract_coordinates (v : Cell) : Option (PyFloat × PyFloat) :=
  match v with
  | .str s =>
    if s != "N/A" && containsComma s then
      match pySplitComma s with
      | p0 :: p1 :: _ =>
        match pyFloatOfString? (pyStrip p0), pyFloatOfString? (pyStrip p1) with
        | some la, some lo => some (la, lo)
        | _, _ => none
      | _ => none
    else none
  | _ => none

/-- A row of the sticker table, with the columns the scripts read. -/
structure StickerRow where
  sticker_ID : Cell
  sticker_location : Cell
  sticker_location_coordinates : Cell
deriving DecidableEq

/-- A row of the general (organization) table, with the columns the scripts
read. -/
structure GeneralRow where
  organization : Cell
  topic : Cell
  sticker_id : Cell
  organization_location_coordinates : Cell
deriving DecidableEq

/-- The value stored in `org_points` for one organization key. -/
structure OrgData where
  coords : PyFloat × PyFloat
  org_name : String
  sticker_id : Cell
  topic : String
deriving DecidableEq

/-- Python dict assignment `d[k] = v` on an association list: an existing
entry (under the given key equality) keeps its position and gets the new
value, otherwise the pair is appended. -/
def dictInsertBy {K V : Type} (eq : K → K → Bool) (d : List (K × V)) (k : K) (v : V) :
    List (K × V) :=
  if d.any (fun kv => eq kv.1 k) then
    d.map (fun kv => if eq kv.1 k then (kv.1, v) else kv)
  else d ++ [(k, v)]

/-- Python dict lookup `d[k]` / `k in d` on an association list. -/
def dictFindBy {K V : Type} (eq : K → K → Bool) (d : List (K × V)) (k : K) : Option V :=
  (d.find? (fun kv => eq kv.1 k)).map (fun kv => kv.2)

/-- `drop_duplicates(subset=['sticker_location'])`, keep `'first'`: keep the
first row for each distinct location value (pandas treats NaN values as
equal to each other here, as does structural `Cell` equality). -/
def dropDupAux : List Cell → List StickerRow → List StickerRow
  | _, [] => []
  | seen, r :: rest =>
    if r.sticker_location ∈ seen then dropDupAux seen rest
    else r :: dropDupAux (r.sticker_location :: seen) rest

/-- `sticker_df.drop_duplicates(subset=['sticker_location'])`. -/
def drop_duplicates_by_location (rows : List StickerRow) : List StickerRow :=
  dropDupAux [] rows

/-- The first row of the table whose `sticker_location` equals `loc`. -/
def firstWithLoc : List StickerRow → Cell → Option StickerRow
  | [], _ => none
  | r :: rest, loc =>
    if r.sticker_location = loc then some r else firstWithLoc rest loc

/-- One iteration of the `unique_points` loop (network.py lines 26-32 and
129-135): rows with a missing location or coordinate cell are skipped, the
coordinate text is parsed, unparsable text is skipped, and a parsed pair is
stored under the location key. -/
def unique_points_step (acc : List (Cell × (PyFloat × PyFloat))) (r : StickerRow) :
    List (Cell × (PyFloat × PyFloat)) :=
  if !(isna r.sticker_location) && !(isna r.sticker_location_coordinates) then
    match extract_coordinates r.sticker_location_coordinates with
    | some p => dictInsertBy pyEqB acc r.sticker_location p
    | none => acc
  else acc

/-- `unique_points` / `sticker_points` (network.py lines 25-32 and 128-135):
the location reconciler. -/
def unique_points (rows : List StickerRow) : List (Cell × (PyFloat × PyFloat)) :=
  (drop_duplicates_by_location rows).foldl unique_points_step []

/-- The entry a deduplicated row contributes to `unique_points`, if any. -/
def unique_points_entry (r : StickerRow) : Option (Cell × (PyFloat × PyFloat)) :=
  if !(isna r.sticker_location) && !(isna r.sticker_location_coordinates) then
    (extract_coordinates r.sticker_location_coordinates).map
      (fun p => (r.sticker_location, p))
  else none

/-- One iteration of the `org_points` loop (network.py lines 139-152): a row
whose coordinate cell is missing, equals `'N/A'`, or fails to parse is
skipped; otherwise an `OrgData` record is stored under the key
`f"{org_name}_{sticker_id}"`, with `"Unknown"` substituted for a missing
organization name or topic. -/
def org_points_step (acc : List (String × OrgData)) (row : GeneralRow) :
    List (String × OrgData) :=
  if !(isna row.organization_location_coordinates) &&
      !(pyEqB row.organization_location_coordinates (Cell.str "N/A")) then
    match extract_coordinates row.organization_location_coordinates with
    | some latlon =>
      let org_name :=
        if !(isna row.organization) then cellStr row.organization else "Unknown"
      let org_key := org_name ++ "_" ++ cellStr row.sticker_id
      let topic := if !(isna row.topic) then cellStr row.topic else "Unknown"
      dictInsertBy (fun a b => a == b) acc org_key
        { coords := latlon, org_name := org_name, sticker_id := row.sticker_id,
          topic := topic }
    | none => acc
  else acc

/-- `org_points` (network.py lines 138-152). -/
def org_points (rows : List GeneralRow) : List (String × OrgData) :=
  rows.foldl org_points_step []

/-- A connection emitted by the link resolver (network.py lines 164-171). -/
structure Conn where
  sticker_loc : Cell
  sticker_coords : PyFloat × PyFloat
  org_key : String
  org_coords : PyFloat × PyFloat
  org_name : String
  topic : String
deriving DecidableEq

/-- `connections` (network.py lines 154-171): for every sticker row and every
`org_points` entry whose `sticker_id` compares `==` to the row's
`sticker_ID`, and whose location name is a key of `sticker_points`, append
one connection. -/
def connections (srows : List StickerRow) (grows : List GeneralRow) : List Conn :=
  let sticker_points := unique_points srows
  let orgs := org_points grows
  srows.foldl (fun conns sticker_row =>
    orgs.foldl (fun conns2 okv =>
      if pyEqB okv.2.sticker_id sticker_row.sticker_ID then
        match dictFindBy pyEqB sticker_points sticker_row.sticker_location with
        | some sc =>
          conns2 ++ [{ sticker_loc := sticker_row.sticker_location,
                       sticker_coords := sc, org_key := okv.1,
                       org_coords := okv.2.coords, org_name := okv.2.org_name,
                       topic := okv.2.topic }]
        | none => conns2
      else conns2) conns) []

/-- All (sticker row, organization entry) pairs in loop order. -/
def allPairs {α β : Type} (l1 : List α) (l2 : List β) : List (α × β) :=
  l1.flatMap (fun a => l2.map (fun b => (a, b)))

/-- The `pie_df` computed inside `create_pie_chart` (visual.py lines 70-90):
with threshold 3, rows with `Count < 3` are removed and replaced by a single
`("Other", sum)` row appended at the end; if no row is below the threshold
the table is returned unchanged. -/
def pie_df (topic_df : List (String × ℕ)) : List (String × ℕ) :=
  let threshold : ℕ := 3
  let to_group := topic_df.filter (fun r => r.2 < threshold)
  if to_group.isEmpty then topic_df
  else
    (topic_df.filter (fun r => threshold ≤ r.2)) ++
      [("Other", (to_group.map (fun r => r.2)).sum)]

/-- Addition of Python floats (used by `sum(...)` over latitudes). -/
def pyAdd : PyFloat → PyFloat → PyFloat
  | .nan, _ => .nan
  | _, .nan => .nan
  | .inf, .neginf => .nan
  | .neginf, .inf => .nan
  | .inf, _ => .inf
  | _, .inf => .inf
  | .neginf, _ => .neginf
  | _, .neginf => .neginf
  | .finite a, .finite b => .finite (a + b)

/-- `sum(xs)` over Python floats (Python's `sum` starts from the int 0). -/
def pySum (xs : List PyFloat) : PyFloat :=
  xs.foldl pyAdd (.finite 0)

/-- Division of a Python float by a positive list length. -/
def pyDivNat (x : PyFloat) (n : ℕ) : PyFloat :=
  match x with
  | .finite q => .finite (q / (n : ℚ))
  | y => y

/-- `all_lats` (network.py lines 174-175): latitudes of all resolved sticker
points followed by latitudes of all organization points. -/
def all_lats (srows : List StickerRow) (grows : List GeneralRow) : List PyFloat :=
  (unique_points srows).map (fun kv => kv.2.1) ++
    (org_points grows).map (fun kv => kv.2.coords.1)

/-- `all_lons` (network.py lines 177-178). -/
def all_lons (srows : List StickerRow) (grows : List GeneralRow) : List PyFloat :=
  (unique_points srows).map (fun kv => kv.2.2) ++
    (org_points grows).map (fun kv => kv.2.coords.2)

/-- Which external collaborators are available or succeed in a given run:
the three optional imports, and whether a given image save / map save call
succeeds. -/
structure Env where
  contextily : Bool
  folium : Bool
  wordcloud : Bool
  savefigOk : String → Bool
  saveMapOk : Bool

/-- Observable output of a run: a file saved, a printed message, or the map
centre handed to the map collaborator. -/
inductive Event
  | saved (file : String)
  | msg (text : String)
  | mapCenter (la lo : PyFloat)
deriving DecidableEq

/-- Sequence two steps of a script: if the first raised, the second never
runs. -/
def pseq (a b : List Event × Option PyExc) : List Event × Option PyExc :=
  match a.2 with
  | some _ => a
  | none => (a.1 ++ b.1, b.2)

/-- `create_bar_chart` (visual.py lines 33-68): unguarded; a failing
`savefig` raises out of the function. -/
def create_bar_chartM (env : Env) (_topic_df : List (String × ℕ)) (output_file : String) :
    List Event × Option PyExc :=
  if env.savefigOk output_file then
    ([Event.saved output_file, Event.msg ("Bar chart saved as " ++ output_file)], none)
  else ([], some PyExc.osError)

/-- `create_pie_chart` (visual.py lines 70-126): computes `pie_df`, then an
unguarded `savefig`. -/
def create_pie_chartM (env : Env) (topic_df : List (String × ℕ)) (output_file : String) :
    List Event × Option PyExc :=
  let _pie := pie_df topic_df
  if env.savefigOk output_file then
    ([Event.saved output_file, Event.msg ("Pie chart saved as " ++ output_file)], none)
  else ([], some PyExc.osError)

/-- `create_wordcloud` (visual.py lines 128-161): the wordcloud import is
guarded by `except ImportError`, which prints a message and returns; a
failing `savefig` inside the `try` block still raises (it is not an
`ImportError`). -/
def create_wordcloudM (env : Env) (_topic_df : List (String × ℕ)) (output_file : String) :
    List Event × Option PyExc :=
  if env.wordcloud then
    if env.savefigOk output_file then
      ([Event.saved output_file, Event.msg ("Word cloud saved as " ++ output_file)], none)
    else ([], some PyExc.osError)
  else
    ([Event.msg "WordCloud package not installed. Install with: pip install wordcloud"], none)

/-- The rendering tail of `analyze_organization_topics` (visual.py lines
163-210): an unguarded `savefig` of the heatmap (the aggregation itself has
no failure modes and its table is not needed for the guarding claims). -/
def analyze_organization_topicsM (env : Env) (output_file : String) :
    List Event × Option PyExc :=
  if env.savefigOk output_file then
    ([Event.saved output_file,
      Event.msg ("Organization-topic heatmap saved as " ++ output_file)], none)
  else ([], some PyExc.osError)

/-- The rendering sequence of visual.py's `__main__` (lines 240-246): bar
chart, pie chart, word cloud, then the organization-topic heatmap, run in
order with no guards between them. -/
def visualMain (env : Env) (topic_df : List (String × ℕ)) : List Event × Option PyExc :=
  pseq (create_bar_chartM env topic_df "topic_bar_chart.png")
    (pseq (create_pie_chartM env topic_df "topic_pie_chart.png")
      (pseq (create_wordcloudM env topic_df "topic_wordcloud.png")
        (analyze_organization_topicsM env "organization_topic_heatmap.png")))

/-- `create_simple_map` (network.py lines 19-115): the contextily import is
guarded by `except ImportError` with a fallback basic plot; the `savefig`
calls themselves are unguarded against non-import failures. -/
def create_simple_mapM (env : Env) (srows : List StickerRow) :
    List Event × Option PyExc :=
  let _points := unique_points srows
  if env.contextily then
    if env.savefigOk "sticker_locations_map.png" then
      ([Event.saved "sticker_locations_map.png", Event.msg "Map created successfully!"], none)
    else ([], some PyExc.osError)
  else
    if env.savefigOk "sticker_locations_map.png" then
      ([Event.msg "Contextily package not installed. Creating basic plot...",
        Event.saved "sticker_locations_map.png"], none)
    else
      ([Event.msg "Contextily package not installed. Creating basic plot..."],
        some PyExc.osError)

/-- `create_expanded_map` (network.py lines 117-225): the whole body is in a
`try` whose only handler is `except ImportError` (returning `False` with a
message), so arithmetic errors such as the division by `len(all_lats)`
propagate; on success it returns `True`. -/
def create_expanded_mapM (env : Env) (srows : List StickerRow) (grows : List GeneralRow) :
    List Event × Except PyExc Bool :=
  if env.folium then
    let sticker_points := unique_points srows
    let orgs := org_points grows
    let conns := connections srows grows
    let lats := all_lats srows grows
    let lons := all_lons srows grows
    if lats.length = 0 then ([], .error PyExc.zeroDivisionError)
    else
      let center_lat := pyDivNat (pySum lats) lats.length
      let center_lon := pyDivNat (pySum lons) lons.length
      if env.saveMapOk then
        ([Event.mapCenter center_lat center_lon,
          Event.saved "expanded_network_map.html",
          Event.msg ("Interactive map created with " ++ toString sticker_points.length ++
            " sticker locations, " ++ toString orgs.length ++ " organizations, and " ++
            toString conns.length ++ " connections")], .ok true)
      else ([Event.mapCenter center_lat center_lon], .error PyExc.osError)
  else
    ([Event.msg "Error creating interactive map: No module named folium"], .ok false)

/-- The flow of network.py's `__main__` (lines 227-248): the simple map, then
the expanded map, whose `False` return is handled with a message rather than
an error. -/
def networkMain (env : Env) (srows : List StickerRow) (grows : List GeneralRow) :
    List Event × Option PyExc :=
  pseq (create_simple_mapM env srows)
    (match create_expanded_mapM env srows grows with
     | (evs, .ok true) => (evs ++ [Event.msg "Visualization complete!"], none)
     | (evs, .ok false) =>
       (evs ++ [Event.msg "Could not create interactive map. Please install folium:"], none)
     | (evs, .error e) => (evs, some e))

/-- The spec's location-reconciler example input. -/
def exampleRows : List StickerRow :=
  [{ sticker_ID := Cell.str "s1", sticker_location := Cell.str "A",
     sticker_location_coordinates := Cell.str "1,1" },
   { sticker_ID := Cell.str "s2", sticker_location := Cell.str "A",
     sticker_location_coordinates := Cell.str "2,2" },
   { sticker_ID := Cell.str "s3", sticker_location := Cell.str "B",
     sticker_location_coordinates := Cell.str "3,3" }]

/-- A one-row organization table used to instantiate the link resolver. -/
def exampleGeneralRows : List GeneralRow :=
  [{ organization := Cell.str "Org", topic := Cell.str "T", sticker_id := Cell.str "s1",
     organization_location_coordinates := Cell.str "2,2" }]

/-- Environment with every collaborator available and every save succeeding. -/
def envAll : Env :=
  { contextily := true, folium := true, wordcloud := true,
    savefigOk := fun _ => true, saveMapOk := true }

/-- Environment in which only the wordcloud package is missing. -/
def envNoWordcloud : Env :=
  { contextily := true, folium := true, wordcloud := false,
    savefigOk := fun _ => true, saveMapOk := true }

/-- Environment in which only contextily is missing. -/
def envNoContextily : Env :=
  { contextily := false, folium := true, wordcloud := true,
    savefigOk := fun _ => true, saveMapOk := true }

/-- Environment in which only folium is missing. -/
def envNoFolium : Env :=
  { contextily := true, folium := false, wordcloud := true,
    savefigOk := fun _ => true, saveMapOk := true }

/-- Environment in which every collaborator is importable but saving the bar
chart image fails (for example an unwritable output path). -/
def envBarFail : Env :=
  { contextily := true, folium := true, wordcloud := true,
    savefigOk := fun f => !(f == "topic_bar_chart.png"), saveMapOk := true }

/-- The connection, if any, that one (sticker row, organization entry) pair
contributes: one connection exactly when the linking identifiers compare
`==` and the row's location name is a key of the sticker-points mapping. -/
def conn_of? (sticker_points : List (Cell × (PyFloat × PyFloat))) (srow : StickerRow)
    (okv : String × OrgData) : Option Conn :=
  if pyEqB okv.2.sticker_id srow.sticker_ID then
    (dictFindBy pyEqB sticker_points srow.sticker_location).map (fun sc =>
      { sticker_loc := srow.sticker_location, sticker_coords := sc, org_key := okv.1,
        org_coords := okv.2.coords, org_name := okv.2.org_name, topic := okv.2.topic })
  else none

theorem pyFloatEqB_eq_true_imp {a b : PyFloat} (h : pyFloatEqB a b = true) : a = b := by
  cases a <;> cases b <;> simp [pyFloatEqB] at h <;> simp [h]

theorem pyEqB_eq_true_imp {a b : Cell} (h : pyEqB a b = true) : a = b := by
  cases a with
  | str s =>
    cases b with
    | str t => exact congrArg Cell.str (by simpa [pyEqB] using h)
    | num g => exact absurd h (by simp [pyEqB])
    | pynone => exact absurd h (by simp [pyEqB])
  | num f =>
    cases b with
    | str t => exact absurd h (by simp [pyEqB])
    | num g => exact congrArg Cell.num (pyFloatEqB_eq_true_imp (by simpa [pyEqB] using h))
    | pynone => exact absurd h (by simp [pyEqB])
  | pynone =>
    cases b with
    | str t => exact absurd h (by simp [pyEqB])
    | num g => exact absurd h (by simp [pyEqB])
    | pynone => rfl

theorem dictInsertBy_of_fresh {K V : Type} (eq : K → K → Bool) (d : List (K × V)) (k : K)
    (v : V) (h : ∀ kv ∈ d, eq kv.1 k = false) :
    dictInsertBy eq d k v = d ++ [(k, v)] := by
  have hc : d.any (fun kv => eq kv.1 k) = false := by
    rw [List.any_eq_false]
    intro kv hkv
    simp [h kv hkv]
  unfold dictInsertBy
  rw [hc]
  simp

theorem keys_dictInsertBy_beq {V : Type} (d : List (String × V)) (k : String) (v : V) :
    k ∈ (dictInsertBy (fun a b => a == b) d k v).map Prod.fst := by
  unfold dictInsertBy
  by_cases h : d.any (fun kv => kv.1 == k) = true
  · rw [if_pos h]
    rw [List.any_eq_true] at h
    obtain ⟨kv, hkv, he⟩ := h
    have hk : kv.1 = k := by simpa using he
    rw [List.map_map]
    apply List.mem_map.mpr
    refine ⟨kv, hkv, ?_⟩
    simp only [Function.comp_apply]
    rw [if_pos he]
    exact hk
  · rw [if_neg h]
    simp

theorem foldl_eq_append_flatMap {α β : Type} (step : List β → α → List β) (f : α → List β)
    (hstep : ∀ acc x, step acc x = acc ++ f x) :
    ∀ (l : List α) (init : List β), l.foldl step init = init ++ l.flatMap f := by
  intro l
  induction l with
  | nil => intro init; simp
  | cons x xs ih =>
    intro init
    simp only [List.foldl_cons, List.flatMap_cons]
    rw [hstep, ih, List.append_assoc]

theorem flatMap_toList_eq_filterMap {α β : Type} (g : α → Option β) :
    ∀ l : List α, l.flatMap (fun x => (g x).toList) = l.filterMap g := by
  intro l
  induction l with
  | nil => simp
  | cons x xs ih =>
    simp only [List.flatMap_cons, List.filterMap_cons]
    cases g x <;> simp [ih]

theorem length_filterMap_eq_length_filter {α β : Type} (g : α → Option β) :
    ∀ l : List α, (l.filterMap g).length = (l.filter (fun x => (g x).isSome)).length := by
  intro l
  induction l with
  | nil => simp
  | cons x xs ih =>
    simp only [List.filterMap_cons, List.filter_cons]
    cases hx : g x <;> simp [hx, ih]

theorem filterMap_allPairs {α β γ : Type} (h : α × β → Option γ) (l1 : List α) (l2 : List β) :
    (allPairs l1 l2).filterMap h = l1.flatMap (fun a => l2.filterMap (fun b => h (a, b))) := by
  induction l1 with
  | nil => simp [allPairs]
  | cons a l1 ih =>
    simp only [allPairs, List.flatMap_cons, List.filterMap_append, List.filterMap_map] at *
    rw [ih]
    rfl

theorem pyEqB_eq_false_of_ne {a b : Cell} (h : a ≠ b) : pyEqB a b = false := by
  cases hpe : pyEqB a b
  · rfl
  · exact absurd (pyEqB_eq_true_imp hpe) h

theorem mem_dropDupAux : ∀ (rows : List StickerRow) (seen : List Cell) (r : StickerRow),
    r ∈ dropDupAux seen rows ↔
      r.sticker_location ∉ seen ∧ firstWithLoc rows r.sticker_location = some r := by
  intro rows
  induction rows with
  | nil => intro seen r; simp [dropDupAux, firstWithLoc]
  | cons r0 rest ih =>
    intro seen r
    simp only [dropDupAux]
    by_cases h0 : r0.sticker_location ∈ seen
    · rw [if_pos h0, ih]
      have hne : r.sticker_location ∉ seen → ¬r0.sticker_location = r.sticker_location := by
        intro hns he
        exact hns (he ▸ h0)
      constructor
      · rintro ⟨hns, hf⟩
        refine ⟨hns, ?_⟩
        rw [firstWithLoc, if_neg (hne hns)]
        exact hf
      · rintro ⟨hns, hf⟩
        rw [firstWithLoc, if_neg (hne hns)] at hf
        exact ⟨hns, hf⟩
    · rw [if_neg h0]
      simp only [List.mem_cons]
      constructor
      · rintro (rfl | hr)
        · refine ⟨h0, ?_⟩
          rw [firstWithLoc, if_pos rfl]
        · rw [ih] at hr
          obtain ⟨hns, hf⟩ := hr
          simp only [List.mem_cons, not_or] at hns
          obtain ⟨hne, hns2⟩ := hns
          refine ⟨hns2, ?_⟩
          rw [firstWithLoc, if_neg (fun he => hne he.symm)]
          exact hf
      · rintro ⟨hns, hf⟩
        by_cases he : r0.sticker_location = r.sticker_location
        · left
          rw [firstWithLoc, if_pos he] at hf
          exact (Option.some.inj hf).symm
        · right
          rw [ih]
          refine ⟨?_, ?_⟩
          · simp only [List.mem_cons, not_or]
            exact ⟨fun hx => he hx.symm, hns⟩
          · rw [firstWithLoc, if_neg he] at hf
            exact hf

theorem nodup_keys_dropDupAux : ∀ (rows : List StickerRow) (seen : List Cell),
    ((dropDupAux seen rows).map (fun x => x.sticker_location)).Nodup := by
  intro rows
  induction rows with
  | nil => intro seen; simp [dropDupAux]
  | cons r0 rest ih =>
    intro seen
    simp only [dropDupAux]
    by_cases h0 : r0.sticker_location ∈ seen
    · rw [if_pos h0]
      exact ih seen
    · rw [if_neg h0]
      simp only [List.map_cons, List.nodup_cons]
      refine ⟨?_, ih _⟩
      intro hmem
      rw [List.mem_map] at hmem
      obtain ⟨r, hr, he⟩ := hmem
      rw [mem_dropDupAux] at hr
      exact hr.1 (by simp [he])

theorem unique_points_entry_eq_some {r : StickerRow} {loc : Cell} {p : PyFloat × PyFloat} :
    unique_points_entry r = some (loc, p) ↔
      r.sticker_location = loc ∧
      (!(isna r.sticker_location) && !(isna r.sticker_location_coordinates)) = true ∧
      extract_coordinates r.sticker_location_coordinates = some p := by
  unfold unique_points_entry
  by_cases hc : (!(isna r.sticker_location) && !(isna r.sticker_location_coordinates)) = true
  · rw [if_pos hc]
    cases hx : extract_coordinates r.sticker_location_coordinates with
    | none => simp [hc]
    | some q =>
      simp [hc]
  · rw [if_neg hc]
    simp [hc]

theorem unique_points_entry_fst {r : StickerRow} {kv : Cell × (PyFloat × PyFloat)}
    (h : unique_points_entry r = some kv) : kv.1 = r.sticker_location := by
  unfold unique_points_entry at h
  by_cases hc : (!(isna r.sticker_location) && !(isna r.sticker_location_coordinates)) = true
  · rw [if_pos hc] at h
    cases hx : extract_coordinates r.sticker_location_coordinates with
    | none => rw [hx] at h; simp at h
    | some p =>
      rw [hx] at h
      simp only [Option.map_some', Option.some.injEq] at h
      exact congrArg Prod.fst h.symm
  · rw [if_neg hc] at h
    simp at h

theorem foldl_unique_points_step :
    ∀ (l : List StickerRow) (acc : List (Cell × (PyFloat × PyFloat))),
      ((l.map (fun x => x.sticker_location)).Nodup) →
      (∀ kv ∈ acc, ∀ r ∈ l, kv.1 ≠ r.sticker_location) →
      l.foldl unique_points_step acc = acc ++ l.filterMap unique_points_entry := by
  intro l
  induction l with
  | nil => intro acc _ _; simp
  | cons r0 rest ih =>
    intro acc hnd hfresh
    simp only [List.map_cons, List.nodup_cons] at hnd
    obtain ⟨hnotin, hnd2⟩ := hnd
    have hstep : unique_points_step acc r0 = acc ++ (unique_points_entry r0).toList := by
      unfold unique_points_step unique_points_entry
      by_cases hc : (!(isna r0.sticker_location) && !(isna r0.sticker_location_coordinates)) = true
      · rw [if_pos hc, if_pos hc]
        cases hx : extract_coordinates r0.sticker_location_coordinates with
        | none => simp
        | some p =>
          simp only [Option.map_some', Option.toList_some]
          exact dictInsertBy_of_fresh pyEqB acc r0.sticker_location p
            (fun kv hkv => pyEqB_eq_false_of_ne
              (hfresh kv hkv r0 (List.mem_cons_self r0 rest)))
      · rw [if_neg hc, if_neg hc]
        simp
    rw [List.foldl_cons, hstep]
    rw [ih (acc ++ (unique_points_entry r0).toList) hnd2 ?_]
    · rw [List.filterMap_cons]
      cases hx : unique_points_entry r0 with
      | none => simp [hx]
      | some kv => simp [hx]
    · intro kv hkv r hr
      rw [List.mem_append] at hkv
      cases hkv with
      | inl hmem => exact hfresh kv hmem r (List.mem_cons_of_mem r0 hr)
      | inr hmem =>
        cases hx : unique_points_entry r0 with
        | none => rw [hx] at hmem; simp at hmem
        | some kv0 =>
          rw [hx] at hmem
          simp only [Option.toList_some, List.mem_singleton] at hmem
          subst hmem
          rw [unique_points_entry_fst hx]
          intro he
          exact hnotin (by rw [he]; exact List.mem_map_of_mem _ hr)

theorem keys_filterMap_entry_sublist : ∀ l : List StickerRow,
    List.Sublist ((l.filterMap unique_points_entry).map Prod.fst)
      (l.map (fun x => x.sticker_location)) := by
  intro l
  induction l with
  | nil => simp
  | cons r0 rest ih =>
    rw [List.filterMap_cons, List.map_cons]
    cases hx : unique_points_entry r0 with
    | none => exact ih.cons _
    | some kv =>
      rw [List.map_cons, unique_points_entry_fst hx]
      exact ih.cons₂ _

theorem unique_points_eq_filterMap (rows : List StickerRow) :
    unique_points rows =
      (drop_duplicates_by_location rows).filterMap unique_points_entry := by
  have h := foldl_unique_points_step (drop_duplicates_by_location rows) []
    (nodup_keys_dropDupAux rows []) (by intro kv hkv; simp at hkv)
  unfold unique_points
  rw [h]
  simp

/-- C2: the location reconciler, given an ordered sequence of raw location
records, produces a mapping with exactly one entry per distinct name (the
key list has no duplicates), and each entry comes from the first record with
that name: that record must have a non-missing name and coordinate cell and
its coordinate text must parse, with duplicates by name discarded before
coordinate resolution; on the spec's example
`[("A","1,1"),("A","2,2"),("B","3,3")]` the result is `{A:(1,1), B:(3,3)}`. -/
theorem unique_points_reconciler (rows : List StickerRow) :
    ((unique_points rows).map Prod.fst).Nodup ∧
    (∀ loc p, (loc, p) ∈ unique_points rows ↔
      ∃ r, firstWithLoc rows loc = some r ∧
        r.sticker_location = loc ∧
        (!(isna r.sticker_location) && !(isna r.sticker_location_coordinates)) = true ∧
        extract_coordinates r.sticker_location_coordinates = some p) ∧
    unique_points exampleRows =
      [(Cell.str "A", (PyFloat.finite 1, PyFloat.finite 1)),
       (Cell.str "B", (PyFloat.finite 3, PyFloat.finite 3))] := by
  refine ⟨?_, ?_, ?_⟩
  · rw [unique_points_eq_filterMap]
    exact List.Nodup.sublist (keys_filterMap_entry_sublist _) (nodup_keys_dropDupAux rows [])
  · intro loc p
    rw [unique_points_eq_filterMap, List.mem_filterMap]
    constructor
    · rintro ⟨r, hr, he⟩
      have h1 := (mem_dropDupAux rows [] r).mp hr
      obtain ⟨he1, he2, he3⟩ := unique_points_entry_eq_some.mp he
      refine ⟨r, ?_, he1, he2, he3⟩
      rw [← he1]
      exact h1.2
    · rintro ⟨r, hf, he1, he2, he3⟩
      refine ⟨r, ?_, ?_⟩
      · exact (mem_dropDupAux rows [] r).mpr ⟨by simp, by rw [he1]; exact hf⟩
      · exact unique_points_entry_eq_some.mpr ⟨he1, he2, he3⟩
  · have h : unique_points exampleRows =
        [(Cell.str "A", (PyFloat.finite (mkRat 1 1), PyFloat.finite (mkRat 1 1))),
         (Cell.str "B", (PyFloat.finite (mkRat 3 1), PyFloat.finite (mkRat 3 1)))] := by
      decide
    rw [h]
    norm_num [Rat.mkRat_eq_div]

/-- Witness for C2: instantiating the reconciler theorem on the spec's
example input shows the entry for name `"A"` carries the first occurrence's
parsed coordinate `(1, 1)`. -/
theorem unique_points_reconciler_witness :
    (Cell.str "A", (PyFloat.finite (mkRat 1 1), PyFloat.finite (mkRat 1 1))) ∈
      unique_points exampleRows := by
  apply ((unique_points_reconciler exampleRows).2.1 (Cell.str "A")
    (PyFloat.finite (mkRat 1 1), PyFloat.finite (mkRat 1 1))).mpr
  refine ⟨{ sticker_ID := Cell.str "s1", sticker_location := Cell.str "A",
            sticker_location_coordinates := Cell.str "1,1" }, ?_, rfl, by decide, ?_⟩
  · decide
  · decide

theorem parsePairE_agree (p0 p1 : String) :
    (match parsePairE p0 p1 with
     | .ok r => Except.ok r
     | .error .valueError => Except.ok none
     | .error .typeError => Except.ok none
     | .error e => Except.error e) =
    Except.ok (ε := PyExc)
      (match pyFloatOfString? (pyStrip p0), pyFloatOfString? (pyStrip p1) with
       | some la, some lo => some (la, lo)
       | _, _ => none) := by
  unfold parsePairE pyFloatE
  cases h0 : pyFloatOfString? (pyStrip p0) with
  | none => rfl
  | some la =>
    cases h1 : pyFloatOfString? (pyStrip p1) with
    | none => rfl
    | some lo => rfl

/-- C1 (amended): `extract_coordinates` is total and pure and never raises:
the exception-explicit embedding never propagates an exception and agrees
with the pure function, which returns either a pair of float values or the
no-coordinate result for every input cell.  (The "finite" part of the
original claim fails, see the counterexample.) -/
theorem extract_coordinates_total_no_raise (v : Cell) :
    extract_coordinatesE v = Except.ok (extract_coordinates v) := by
  cases v with
  | num f => rfl
  | pynone => rfl
  | str s =>
    simp only [extract_coordinatesE, extract_coordinates, tryParsePair]
    by_cases hg : (s != "N/A" && containsComma s) = true
    · rw [if_pos hg, if_pos hg]
      cases hsp : pySplitComma s with
      | nil => rfl
      | cons p0 tail =>
        cases tail with
        | nil => rfl
        | cons p1 rest => exact parsePairE_agree p0 p1
    · rw [if_neg hg, if_neg hg]

/-- C1 counterexample: on the string `"inf,1"` the parser succeeds — Python
`float("inf")` is the value infinity — so the result is a pair whose first
component is not finite, refuting "returns either a pair of finite numbers
or a no-coordinate result". -/
theorem extract_coordinates_inf_counterexample :
    extract_coordinates (Cell.str "inf,1") = some (PyFloat.inf, PyFloat.finite 1) ∧
    PyFloat.isFinite PyFloat.inf = false := by
  constructor
  · have h : extract_coordinates (Cell.str "inf,1") =
        some (PyFloat.inf, PyFloat.finite (mkRat 1 1)) := by decide
    rw [h]
    norm_num [Rat.mkRat_eq_div]
  · rfl

/-- C7: the coordinate parser's policy: a non-string value, the `"N/A"`
sentinel, or a comma-free string yields no coordinate; if the first two
comma-delimited parts both parse numerically after stripping, the pair is
returned with trailing parts ignored; if either part fails to parse the
result is no coordinate; and the spec's three examples hold. -/
theorem extract_coordinates_policy :
    (∀ v : Cell, (∀ s, v ≠ Cell.str s) → extract_coordinates v = none) ∧
    extract_coordinates (Cell.str "N/A") = none ∧
    (∀ s : String, containsComma s = false → extract_coordinates (Cell.str s) = none) ∧
    (∀ (s p0 p1 : String) (rest : List String) (la lo : PyFloat),
      s ≠ "N/A" → containsComma s = true →
      pySplitComma s = p0 :: p1 :: rest →
      pyFloatOfString? (pyStrip p0) = some la →
      pyFloatOfString? (pyStrip p1) = some lo →
      extract_coordinates (Cell.str s) = some (la, lo)) ∧
    (∀ (s p0 p1 : String) (rest : List String),
      pySplitComma s = p0 :: p1 :: rest →
      (pyFloatOfString? (pyStrip p0) = none ∨ pyFloatOfString? (pyStrip p1) = none) →
      extract_coordinates (Cell.str s) = none) ∧
    extract_coordinates (Cell.str "52.5, 13.4") =
      some (PyFloat.finite 52.5, PyFloat.finite 13.4) ∧
    extract_coordinates (Cell.str "abc, 13.4") = none ∧
    extract_coordinates (Cell.str "52.5,13.4,extra") =
      some (PyFloat.finite 52.5, PyFloat.finite 13.4) := by
  refine ⟨?_, by decide, ?_, ?_, ?_, ?_, by decide, ?_⟩
  · intro v h
    cases v with
    | str s => exact absurd rfl (h s)
    | num f => rfl
    | pynone => rfl
  · intro s h
    simp [extract_coordinates, h]
  · intro s p0 p1 rest la lo hne hcomma hsplit h0 h1
    have hg : (s != "N/A" && containsComma s) = true := by
      rw [Bool.and_eq_true]
      exact ⟨by simp [hne], hcomma⟩
    simp only [extract_coordinates]
    rw [if_pos hg, hsplit]
    show (match pyFloatOfString? (pyStrip p0), pyFloatOfString? (pyStrip p1) with
          | some la, some lo => some (la, lo)
          | _, _ => none) = some (la, lo)
    rw [h0, h1]
  · intro s p0 p1 rest hsplit hor
    by_cases hg : (s != "N/A" && containsComma s) = true
    · simp only [extract_coordinates]
      rw [if_pos hg, hsplit]
      show (match pyFloatOfString? (pyStrip p0), pyFloatOfString? (pyStrip p1) with
            | some la, some lo => some (la, lo)
            | _, _ => none) = none
      rcases hor with h0 | h1
      · rw [h0]
      · cases h0 : pyFloatOfString? (pyStrip p0) with
        | none => rfl
        | some la => rw [h1]
    · simp only [extract_coordinates]
      rw [if_neg hg]
  · have h : extract_coordinates (Cell.str "52.5, 13.4") =
        some (PyFloat.finite (mkRat 525 10), PyFloat.finite (mkRat 134 10)) := by decide
    rw [h]
    norm_num [Rat.mkRat_eq_div]
  · have h : extract_coordinates (Cell.str "52.5,13.4,extra") =
        some (PyFloat.finite (mkRat 525 10), PyFloat.finite (mkRat 134 10)) := by decide
    rw [h]
    norm_num [Rat.mkRat_eq_div]

/-- Witness for C7: applying the success case of the policy theorem to the
concrete string `"0,1"`. -/
theorem extract_coordinates_policy_witness :
    extract_coordinates (Cell.str "0,1") =
      some (PyFloat.finite (mkRat 0 1), PyFloat.finite (mkRat 1 1)) :=
  extract_coordinates_policy.2.2.2.1 "0,1" "0" "1" []
    (PyFloat.finite (mkRat 0 1)) (PyFloat.finite (mkRat 1 1))
    (by decide) (by decide) (by decide) (by decide) (by decide)

theorem connections_step_inner (sp : List (Cell × (PyFloat × PyFloat))) (srow : StickerRow)
    (acc : List Conn) (okv : String × OrgData) :
    (if pyEqB okv.2.sticker_id srow.sticker_ID then
       match dictFindBy pyEqB sp srow.sticker_location with
       | some sc =>
         acc ++ [{ sticker_loc := srow.sticker_location, sticker_coords := sc,
                   org_key := okv.1, org_coords := okv.2.coords,
                   org_name := okv.2.org_name, topic := okv.2.topic }]
       | none => acc
     else acc) = acc ++ (conn_of? sp srow okv).toList := by
  unfold conn_of?
  by_cases hc : pyEqB okv.2.sticker_id srow.sticker_ID = true
  · rw [if_pos hc, if_pos hc]
    cases dictFindBy pyEqB sp srow.sticker_location with
    | none => simp
    | some sc => simp
  · rw [if_neg hc, if_neg hc]
    simp

/-- C4: the link resolver emits exactly one connection for each (sticker
row, organization entry) pair whose linking identifiers compare equal and
whose location name resolved, with no deduplication: `connections` is
exactly the `filterMap` of `conn_of?` over all pairs, and its length is the
number of matching pairs. -/
theorem connections_link_resolver (srows : List StickerRow) (grows : List GeneralRow) :
    connections srows grows =
      (allPairs srows (org_points grows)).filterMap
        (fun so => conn_of? (unique_points srows) so.1 so.2) ∧
    (connections srows grows).length =
      ((allPairs srows (org_points grows)).filter
        (fun so => pyEqB so.2.2.sticker_id so.1.sticker_ID &&
          (dictFindBy pyEqB (unique_points srows) so.1.sticker_location).isSome)).length := by
  have hmain : connections srows grows =
      (allPairs srows (org_points grows)).filterMap
        (fun so => conn_of? (unique_points srows) so.1 so.2) := by
    unfold connections
    rw [foldl_eq_append_flatMap _
      (fun srow => (org_points grows).flatMap
        (fun okv => (conn_of? (unique_points srows) srow okv).toList)) ?_ srows []]
    · rw [List.nil_append, filterMap_allPairs]
      congr 1
      funext srow
      rw [flatMap_toList_eq_filterMap]
    · intro acc srow
      rw [foldl_eq_append_flatMap _
        (fun okv => (conn_of? (unique_points srows) srow okv).toList) ?_ (org_points grows) acc]
      intro acc2 okv
      exact connections_step_inner (unique_points srows) srow acc2 okv
  refine ⟨hmain, ?_⟩
  rw [hmain, length_filterMap_eq_length_filter]
  congr 1
  apply List.filter_congr
  intro so _
  unfold conn_of?
  by_cases hc : pyEqB so.2.2.sticker_id so.1.sticker_ID = true
  · rw [if_pos hc, hc, Bool.true_and]
    cases dictFindBy pyEqB (unique_points srows) so.1.sticker_location <;> rfl
  · rw [if_neg hc]
    rw [Bool.not_eq_true] at hc
    rw [hc, Bool.false_and]
    rfl

/-- C5: proportional (pie) bucketing with threshold 3: rows with count at
least 3 are kept unchanged in order, rows below 3 are summed into one
synthetic `("Other", sum)` entry appended at the end exactly when at least
one row is below the threshold; plus the spec's two examples. -/
theorem pie_df_other_bucketing :
    (∀ l : List (String × ℕ),
      pie_df l = l.filter (fun r => 3 ≤ r.2) ++
        (if l.any (fun r => r.2 < 3) then
          [("Other", ((l.filter (fun r => r.2 < 3)).map (fun r => r.2)).sum)]
        else [])) ∧
    pie_df [("a", 5), ("b", 2), ("c", 1)] = [("a", 5), ("Other", 3)] ∧
    pie_df [("a", 5), ("b", 4)] = [("a", 5), ("b", 4)] := by
  refine ⟨?_, by decide, by decide⟩
  intro l
  by_cases h : l.any (fun r => r.2 < 3) = true
  · rw [if_pos h]
    obtain ⟨x, hx, hxp⟩ := List.any_eq_true.mp h
    have hxf : x ∈ l.filter (fun r => r.2 < 3) := List.mem_filter.mpr ⟨hx, hxp⟩
    have hfe : (l.filter (fun r => r.2 < 3)).isEmpty = false := by
      cases hh : (l.filter (fun r => r.2 < 3)).isEmpty
      · rfl
      · rw [List.isEmpty_iff] at hh
        rw [hh] at hxf
        simp at hxf
    simp only [pie_df]
    rw [hfe]
    rfl
  · have h2 : l.any (fun r => r.2 < 3) = false := by
      rwa [Bool.not_eq_true] at h
    rw [h2]
    have hnil : l.filter (fun r => r.2 < 3) = [] := by
      rw [List.filter_eq_nil_iff]
      intro x hx
      have hfalse := List.any_eq_false.mp h2 x hx
      simpa using hfalse
    simp only [pie_df]
    rw [hnil]
    rw [if_neg Bool.false_ne_true, List.append_nil,
      if_pos (show ([] : List (String × ℕ)).isEmpty = true from rfl)]
    symm
    rw [List.filter_eq_self]
    intro a ha
    have hfalse := List.any_eq_false.mp h2 a ha
    simp only [decide_eq_true_eq] at hfalse ⊢
    omega

/-- C8: organization-record construction: a row whose coordinate cell is
missing, equals `"N/A"`, or fails to parse contributes nothing (dropped
silently, no error state exists); a row whose coordinate resolves is always
stored (its key is present afterwards), with `"Unknown"` substituted for a
missing organization name or topic rather than dropping the row. -/
theorem org_points_construction (rows : List GeneralRow) (row : GeneralRow) :
    ((isna row.organization_location_coordinates = true ∨
      pyEqB row.organization_location_coordinates (Cell.str "N/A") = true ∨
      extract_coordinates row.organization_location_coordinates = none) →
        org_points (rows ++ [row]) = org_points rows) ∧
    (∀ latlon : PyFloat × PyFloat,
      (!(isna row.organization_location_coordinates) &&
        !(pyEqB row.organization_location_coordinates (Cell.str "N/A"))) = true →
      extract_coordinates row.organization_location_coordinates = some latlon →
      org_points (rows ++ [row]) =
        dictInsertBy (fun a b => a == b) (org_points rows)
          ((if !(isna row.organization) then cellStr row.organization else "Unknown") ++
            "_" ++ cellStr row.sticker_id)
          { coords := latlon,
            org_name :=
              if !(isna row.organization) then cellStr row.organization else "Unknown",
            sticker_id := row.sticker_id,
            topic := if !(isna row.topic) then cellStr row.topic else "Unknown" } ∧
      ((if !(isna row.organization) then cellStr row.organization else "Unknown") ++
        "_" ++ cellStr row.sticker_id) ∈ (org_points (rows ++ [row])).map Prod.fst) ∧
    (isna row.organization = true →
      (if !(isna row.organization) then cellStr row.organization else "Unknown") =
        "Unknown") ∧
    (isna row.topic = true →
      (if !(isna row.topic) then cellStr row.topic else "Unknown") = "Unknown") := by
  have happ : org_points (rows ++ [row]) = org_points_step (org_points rows) row := by
    unfold org_points
    rw [List.foldl_append]
    rfl
  refine ⟨?_, ?_, ?_, ?_⟩
  · intro hdrop
    rw [happ]
    rcases hdrop with h | h | h
    · simp [org_points_step, h]
    · simp [org_points_step, h]
    · by_cases hc : (!(isna row.organization_location_coordinates) &&
        !(pyEqB row.organization_location_coordinates (Cell.str "N/A"))) = true
      · simp [org_points_step, hc, h]
      · simp [org_points_step, hc]
  · intro latlon hcond hex
    have h1 : org_points (rows ++ [row]) =
        dictInsertBy (fun a b => a == b) (org_points rows)
          ((if !(isna row.organization) then cellStr row.organization else "Unknown") ++
            "_" ++ cellStr row.sticker_id)
          { coords := latlon,
            org_name :=
              if !(isna row.organization) then cellStr row.organization else "Unknown",
            sticker_id := row.sticker_id,
            topic := if !(isna row.topic) then cellStr row.topic else "Unknown" } := by
      rw [happ]
      unfold org_points_step
      rw [if_pos hcond, hex]
    refine ⟨h1, ?_⟩
    rw [h1]
    exact keys_dictInsertBy_beq _ _ _
  · intro h
    rw [h]
    rfl
  · intro h
    rw [h]
    rfl

/-- Witness for C8: a row with missing organization name and topic but a
parsable coordinate is kept, keyed `Unknown_7`. -/
theorem org_points_construction_witness :
    ("Unknown" ++ "_" ++ "7") ∈
      (org_points ([] ++
        [{ organization := Cell.pynone, topic := Cell.pynone, sticker_id := Cell.str "7",
           organization_location_coordinates := Cell.str "1,2" }])).map Prod.fst :=
  ((org_points_construction []
    { organization := Cell.pynone, topic := Cell.pynone, sticker_id := Cell.str "7",
      organization_location_coordinates := Cell.str "1,2" }).2.1
    (PyFloat.finite (mkRat 1 1), PyFloat.finite (mkRat 2 1)) (by decide) (by decide)).2

/-- C9 counterexample: in an environment where every optional package is
importable and only saving the bar-chart image fails, the failure is not
reported as a message and is fatal: the run stops with the exception and the
pie chart, word cloud and heatmap — whose own renders would succeed — are
never attempted.  This refutes "every rendering call is independently
guarded... no single chart failure is fatal to the whole run". -/
theorem rendering_guard_counterexample :
    (visualMain envBarFail [("x", 3)]).2 = some PyExc.osError ∧
    envBarFail.savefigOk "topic_pie_chart.png" = true ∧
    (visualMain envBarFail [("x", 3)]).1 = [] ∧
    (visualMain envBarFail [("x", 3)]).1.contains (Event.saved "topic_pie_chart.png") =
      false := by
  refine ⟨by decide, by decide, by decide, by decide⟩

/-- C9 (amended): the optional-capability imports are guarded: a missing
wordcloud package is reported with a message and only the word cloud is
skipped while the bar chart, pie chart and heatmap are still produced; a
missing contextily falls back to the basic plot with a message and still
saves the map; a missing folium is reported, `create_expanded_map` returns
`False`, and the rest of the run proceeds without error. -/
theorem rendering_guards (df : List (String × ℕ)) (srows : List StickerRow)
    (grows : List GeneralRow) :
    ((visualMain envNoWordcloud df).2 = none ∧
     Event.msg "WordCloud package not installed. Install with: pip install wordcloud" ∈
       (visualMain envNoWordcloud df).1 ∧
     (visualMain envNoWordcloud df).1.contains (Event.saved "topic_wordcloud.png") = false ∧
     Event.saved "topic_bar_chart.png" ∈ (visualMain envNoWordcloud df).1 ∧
     Event.saved "topic_pie_chart.png" ∈ (visualMain envNoWordcloud df).1 ∧
     Event.saved "organization_topic_heatmap.png" ∈ (visualMain envNoWordcloud df).1) ∧
    ((visualMain envAll df).2 = none ∧
     Event.saved "topic_wordcloud.png" ∈ (visualMain envAll df).1) ∧
    (create_simple_mapM envNoContextily srows =
      ([Event.msg "Contextily package not installed. Creating basic plot...",
        Event.saved "sticker_locations_map.png"], none)) ∧
    (create_expanded_mapM envNoFolium srows grows =
      ([Event.msg "Error creating interactive map: No module named folium"],
        Except.ok false) ∧
     (networkMain envNoFolium srows grows).2 = none ∧
     Event.saved "sticker_locations_map.png" ∈ (networkMain envNoFolium srows grows).1) := by
  have hv1 : visualMain envNoWordcloud df =
      ([Event.saved "topic_bar_chart.png",
        Event.msg ("Bar chart saved as " ++ "topic_bar_chart.png"),
        Event.saved "topic_pie_chart.png",
        Event.msg ("Pie chart saved as " ++ "topic_pie_chart.png"),
        Event.msg "WordCloud package not installed. Install with: pip install wordcloud",
        Event.saved "organization_topic_heatmap.png",
        Event.msg ("Organization-topic heatmap saved as " ++
          "organization_topic_heatmap.png")], none) := rfl
  have hv2 : visualMain envAll df =
      ([Event.saved "topic_bar_chart.png",
        Event.msg ("Bar chart saved as " ++ "topic_bar_chart.png"),
        Event.saved "topic_pie_chart.png",
        Event.msg ("Pie chart saved as " ++ "topic_pie_chart.png"),
        Event.saved "topic_wordcloud.png",
        Event.msg ("Word cloud saved as " ++ "topic_wordcloud.png"),
        Event.saved "organization_topic_heatmap.png",
        Event.msg ("Organization-topic heatmap saved as " ++
          "organization_topic_heatmap.png")], none) := rfl
  have hn : networkMain envNoFolium srows grows =
      ([Event.saved "sticker_locations_map.png", Event.msg "Map created successfully!",
        Event.msg "Error creating interactive map: No module named folium",
        Event.msg "Could not create interactive map. Please install folium:"],
       none) := rfl
  refine ⟨⟨?_, ?_, ?_, ?_, ?_, ?_⟩, ⟨?_, ?_⟩, rfl, ⟨rfl, ?_, ?_⟩⟩ <;>
    first
      | (rw [hv1]; decide)
      | rw [hv1]
      | (rw [hv2]; decide)
      | rw [hv2]
      | (rw [hn]; decide)
      | rw [hn]

/-- Witness for C9: the amended guarding theorem applied at a concrete topic
table and empty spreadsheets. -/
theorem rendering_guards_witness :
    Event.saved "topic_bar_chart.png" ∈ (visualMain envNoWordcloud [("x", 3)]).1 :=
  (rendering_guards [("x", 3)] [] []).1.2.2.2.1

/-- C10: `create_expanded_map` computes the map centre as the arithmetic
mean (`sum / len`) of all resolved latitudes and longitudes; when no sticker
location and no organization row resolves, `len(all_lats)` is zero and the
division raises `ZeroDivisionError` — which escapes the `except ImportError`
handler instead of the documented skipped/`False` return — while any input
with at least one resolved coordinate completes and hands the mean centre to
the map collaborator. -/
theorem expanded_map_center_division (env : Env) (srows : List StickerRow)
    (grows : List GeneralRow) (hf : env.folium = true) :
    (unique_points srows = [] → org_points grows = [] →
      (create_expanded_mapM env srows grows).2 = Except.error PyExc.zeroDivisionError ∧
      (create_expanded_mapM env srows grows).2 ≠ Except.ok false) ∧
    (env.saveMapOk = true →
      (all_lats srows grows).length ≠ 0 →
      (create_expanded_mapM env srows grows).2 = Except.ok true ∧
      Event.mapCenter
        (pyDivNat (pySum (all_lats srows grows)) (all_lats srows grows).length)
        (pyDivNat (pySum (all_lons srows grows)) (all_lons srows grows).length) ∈
        (create_expanded_mapM env srows grows).1) := by
  obtain ⟨c, f, w, sv, sm⟩ := env
  have hf2 : f = true := hf
  subst hf2
  constructor
  · intro h1 h2
    have hlen0 : all_lats srows grows = [] := by
      unfold all_lats
      rw [h1, h2]
      rfl
    have hres : (create_expanded_mapM ⟨c, true, w, sv, sm⟩ srows grows).2 =
        Except.error PyExc.zeroDivisionError := by
      simp [create_expanded_mapM, hlen0]
    refine ⟨hres, ?_⟩
    rw [hres]
    intro hcontra
    exact Except.noConfusion hcontra
  · intro hsm hlen
    have hsm2 : sm = true := hsm
    subst hsm2
    constructor
    · simp [create_expanded_mapM, hlen]
    · simp [create_expanded_mapM, hlen]

/-- Witness for C10: with both spreadsheets empty nothing resolves and the
expanded-map computation ends in `ZeroDivisionError`. -/
theorem expanded_map_center_division_witness :
    (create_expanded_mapM envAll [] []).2 = Except.error PyExc.zeroDivisionError :=
  ((expanded_map_center_division envAll [] [] rfl).1 rfl rfl).1

/-- Witness for C1: the exception-free agreement theorem evaluated at a
concrete unparsable string. -/
theorem extract_coordinates_total_no_raise_witness :
    extract_coordinatesE (Cell.str "abc,def") =
      Except.ok (extract_coordinates (Cell.str "abc,def")) :=
  extract_coordinates_total_no_raise (Cell.str "abc,def")

/-- Witness for C4: the link-resolver count identity evaluated on the
example sticker table and a one-row organization table. -/
theorem connections_link_resolver_witness :
    (connections exampleRows exampleGeneralRows).length =
      ((allPairs exampleRows (org_points exampleGeneralRows)).filter
        (fun so => pyEqB so.2.2.sticker_id so.1.sticker_ID &&
          (dictFindBy pyEqB (unique_points exampleRows) so.1.sticker_location).isSome)).length :=
  (connections_link_resolver exampleRows exampleGeneralRows).2

/-- Witness for C5: the bucketing theorem's first example. -/
theorem pie_df_other_bucketing_witness :
    pie_df [("a", 5), ("b", 2), ("c", 1)] = [("a", 5), ("Other", 3)] :=
  pie_df_other_bucketing.2.1
